import Mathlib

/-
Verification of the inter-node request/reply layer of a distributed batch
server (src/server/issue_request.c).  The server issues asynchronous batch
requests to peers over two transports: one-connection-per-request TCP
(correlated by connection handle) and a persistent multiplexed TPP stream
per peer (correlated by a per-request message identifier).  This file gives
a shallow embedding of the tracking, dispatch, correlation, retry and
redirect logic and proves its main behavioural properties.

Constants such as PBSE_* error numbers and PBS_NET_* policy constants come
from headers (pbs_error.h, net_connect.h, server_limits.h) that are not
part of the extracted source; their values are the conventional PBS ones
and the theorems use them only symbolically.  The behaviour of set_task
and dispatch_task (work_task.c, also not extracted) is modelled from the
specification: create inserts the task into the global event list, and
complete/dispatch removes the task from whichever lists hold it and
invokes its callback exactly once.
-/

set_option autoImplicit false

namespace IssueRequest

/-- Transient-failure indicator returned by name resolution / connect
(net_connect.h, not in the extracted source). -/
def PBS_NET_RC_RETRY : Int := -2

/-- Fixed backoff interval for retrying a transient send failure
(server_limits.h, not in the extracted source). -/
def PBS_NET_RETRY_TIME : Int := 30

/-- Fixed retry ceiling: total seconds after which a retried request is
abandoned (server_limits.h, not in the extracted source). -/
def PBS_NET_RETRY_LIMIT : Int := 14400

/-- Internal "system error" PBSE code (pbs_error.h, not in the extracted
source). -/
def PBSE_SYSTEM : Int := 15010

/-- PBSE code "cannot relay to MOM" (pbs_error.h, not in the extracted
source). -/
def PBSE_NORELYMOM : Int := 15031

/-- The null (empty) reply-choice tag BATCH_REPLY_CHOICE_NULL
(libpbs.h, not in the extracted source). -/
def BATCH_REPLY_CHOICE_NULL : Nat := 1

/-- Work-task types used by this layer (work_task.h). -/
inductive WType where
  | Deferred_Local
  | Deferred_Reply
  | Deferred_cmd
  | Timed
deriving DecidableEq, Repr

/-- The fields of a batch_reply touched by this layer: the result code
`brp_code` and the choice tag `brp_choice`. -/
structure BatchReply where
  brp_code : Int
  brp_choice : Nat
deriving DecidableEq, Repr

/-- The field of a batch_request touched by the reply correlator: its
embedded reply record `rq_reply`. -/
structure BatchRequest where
  rq_reply : BatchReply
deriving DecidableEq, Repr

/-- A work task on a MOM's deferred-command list (msr_deferred_cmds).
`wt_event2` is the message identifier stored at send time; `wt_parm1` is
the attached batch_request when the task is of type WORK_Deferred_Reply
(for WORK_Deferred_cmd tasks there is no batch_request); `wt_parm3` is the
reply pointer stored just before dispatch on the TPP path. -/
structure DefTask where
  wt_type : WType
  wt_event2 : String
  wt_parm1 : Option BatchRequest
  wt_parm3 : Option BatchReply
  wt_aux : Int
deriving DecidableEq, Repr

/-- Forced completion applied to one deferred task on the broken-stream
path of process_DreplyTPP (issue_request.c lines 812-830): a task of type
WORK_Deferred_Reply with an attached batch_request gets its reply set to
the read error `rc` with the null choice; every task gets
`wt_aux := PBSE_NORELYMOM` and is then dispatched. -/
def purgeTask (rc : Int) (t : DefTask) : DefTask :=
  let t1 :=
    if t.wt_type = WType.Deferred_Reply then
      match t.wt_parm1 with
      | some _ =>
        { t with wt_parm1 := some { rq_reply :=
            { brp_code := rc, brp_choice := BATCH_REPLY_CHOICE_NULL } } }
      | none => t
    else t
  { t1 with wt_aux := PBSE_NORELYMOM }

/-- The broken-stream purge loop of process_DreplyTPP: dispatch_task pops
each task in turn off the deferred list until it is empty, so the list of
dispatched tasks is the purged image of the whole deferred list. -/
def tppPurgeD (rc : Int) : List DefTask → List DefTask
  | [] => []
  | t :: rest => purgeTask rc t :: tppPurgeD rc rest

/-- Completion of a matched task on the TPP reply path
(issue_request.c lines 841-880): the reply in play is the attached
request's `rq_reply` when the task carries a batch_request
(WORK_Deferred_Reply with non-null wt_parm1) and a freshly allocated
zeroed reply otherwise.  If DIS_reply_read failed with `decodeRc`, the
reply is synthesized as (decodeRc, null choice) and wt_aux becomes
PBSE_NORELYMOM; otherwise the decoded reply is used and wt_aux becomes its
brp_code.  The reply is stored in wt_parm3 before dispatch.
`matchedRep` is the reply as dispatched and `matchedAux` the wt_aux value;
`completeMatched` is the whole per-task completion. -/
def matchedRep (decodeRc : Int) (decoded : BatchReply) : BatchReply :=
  if decodeRc ≠ 0 then
    { brp_code := decodeRc, brp_choice := BATCH_REPLY_CHOICE_NULL }
  else decoded

/-- The wt_aux value stored for a matched task on the TPP reply path:
PBSE_NORELYMOM on decode failure, the decoded brp_code otherwise. -/
def matchedAux (decodeRc : Int) (decoded : BatchReply) : Int :=
  if decodeRc ≠ 0 then PBSE_NORELYMOM else decoded.brp_code

/-- Per-task completion of a matched task on the TPP reply path, see
`matchedRep`. -/
def completeMatched (decodeRc : Int) (decoded : BatchReply) (t : DefTask) : DefTask :=
  if t.wt_type = WType.Deferred_Reply ∧ t.wt_parm1.isSome then
    { t with wt_parm1 := some { rq_reply := matchedRep decodeRc decoded },
             wt_parm3 := some (matchedRep decodeRc decoded),
             wt_aux := matchedAux decodeRc decoded }
  else
    { t with wt_parm3 := some (matchedRep decodeRc decoded),
             wt_aux := matchedAux decodeRc decoded }

/-- Observable outcome of one process_DreplyTPP invocation: the tasks
dispatched (with their final field values, in dispatch order), the peer's
deferred list afterwards, whether the inbound msgid buffer was freed, and
any task deleted without dispatch (the out-of-memory branch). -/
structure TPPResult where
  dispatched : List DefTask
  remaining : List DefTask
  msgidFreed : Bool
  deletedNoDispatch : List DefTask
deriving DecidableEq, Repr

/-- The matching scan of process_DreplyTPP (issue_request.c lines
835-885): walk the deferred list; on the first task whose stored msgid
strcmp-equals the received one, decode and dispatch it and stop (break);
after the loop the received msgid buffer is freed.  When the matched task
has no batch_request, a reply holder is allocated first; if that
allocation fails the task is deleted and the function returns early
(without freeing the received msgid). -/
def tppScan (msgid : String) (decodeRc : Int) (decoded : BatchReply) (mallocOk : Bool) :
    List DefTask → TPPResult
  | [] => { dispatched := [], remaining := [], msgidFreed := true, deletedNoDispatch := [] }
  | t :: rest =>
    if t.wt_event2 = msgid then
      if t.wt_type = WType.Deferred_Reply ∧ t.wt_parm1.isSome then
        { dispatched := [completeMatched decodeRc decoded t], remaining := rest,
          msgidFreed := true, deletedNoDispatch := [] }
      else if mallocOk then
        { dispatched := [completeMatched decodeRc decoded t], remaining := rest,
          msgidFreed := true, deletedNoDispatch := [] }
      else
        { dispatched := [], remaining := rest, msgidFreed := false,
          deletedNoDispatch := [t] }
    else
      let r := tppScan msgid decodeRc decoded mallocOk rest
      { dispatched := r.dispatched, remaining := t :: r.remaining,
        msgidFreed := r.msgidFreed, deletedNoDispatch := r.deletedNoDispatch }

/-- process_DreplyTPP (issue_request.c lines 794-886).  Inputs model the
external environment: whether the stream's peer is known (tfind2 on streams),
the result of reading the inbound message id (disrst: the string read, or
none, plus its error code), the result of DIS_reply_read on the matched
task, whether the reply-holder allocation succeeds, and the peer's
deferred-command list. -/
def process_DreplyTPP (peerKnown : Bool) (msgid : Option String) (readRc : Int)
    (decodeRc : Int) (decoded : BatchReply) (mallocOk : Bool)
    (deferred : List DefTask) : TPPResult :=
  if peerKnown = false then
    { dispatched := [], remaining := deferred, msgidFreed := false, deletedNoDispatch := [] }
  else
    match msgid with
    | none =>
      { dispatched := tppPurgeD readRc deferred, remaining := [],
        msgidFreed := false, deletedNoDispatch := [] }
    | some m =>
      if readRc ≠ 0 then
        { dispatched := tppPurgeD readRc deferred, remaining := [],
          msgidFreed := false, deletedNoDispatch := [] }
      else tppScan m decodeRc decoded mallocOk deferred

/-- A work task on the global event list task_list_event as seen by the
TCP reply correlator: its type, its event (the connection handle for
WORK_Deferred_Reply tasks) and the attached batch_request. -/
structure EvTask where
  wt_type : WType
  wt_event : Int
  request : BatchRequest
deriving DecidableEq, Repr

/-- The scan loop of process_Dreply (issue_request.c lines 749-754):
walk task_list_event and stop at the first task of type
WORK_Deferred_Reply whose wt_event equals the readable socket. -/
def findDreplyTask (sock : Int) : List EvTask → Option EvTask
  | [] => none
  | t :: rest =>
    if t.wt_type = WType.Deferred_Reply ∧ t.wt_event = sock then some t
    else findDreplyTask sock rest

/-- Observable outcome of one process_Dreply invocation: whether the
connection was closed, and the task dispatched (with its final reply
fields), if any. -/
structure DreplyResult where
  connClosed : Bool
  dispatched : Option EvTask
deriving DecidableEq, Repr

/-- process_Dreply (issue_request.c lines 741-778): find the deferred
reply task for the socket; if none, close the connection and return
without dispatching anything; otherwise decode the reply (DIS_reply_read,
whose outcome is modelled by `decodeRc` and `decoded`) — on decode failure
close the connection and synthesize a reply carrying the decode error and
the null choice — and dispatch the task. -/
def process_Dreply (sock : Int) (decodeRc : Int) (decoded : BatchReply)
    (tasks : List EvTask) : DreplyResult :=
  match findDreplyTask sock tasks with
  | none => { connClosed := true, dispatched := none }
  | some t =>
    if decodeRc ≠ 0 then
      { connClosed := true,
        dispatched := some { t with request := { rq_reply :=
          { brp_code := decodeRc, brp_choice := BATCH_REPLY_CHOICE_NULL } } } }
    else
      { connClosed := false,
        dispatched := some { t with request := { rq_reply := decoded } } }

/-- The two remote transports selected by issue_Drequest. -/
inductive Prot where
  | tcp
  | tpp
deriving DecidableEq, Repr

/-- Observable outcome of one issue_Drequest invocation: the return code,
whether set_task created a work task, whether that task was deleted again,
whether a reserved message id was freed, whether the task is (still)
linked on the global event list, the msgid stored in the task's wt_event2,
the protocol stored in wt_aux2, whether the task was handed back through
ppwt, and whether the request was dispatched locally. -/
structure DrqResult where
  ret : Int
  taskCreated : Bool
  taskDeleted : Bool
  msgidFreed : Bool
  taskOnEventList : Bool
  task_event2 : Option String
  task_aux2 : Option Prot
  returnedTask : Bool
  localDispatched : Bool
deriving DecidableEq, Repr

/-- issue_Drequest (issue_request.c lines 397-730).  `isLocal` models
conn == PBS_LOCAL_CONNECTION; `knownType` models whether rq_type is one
of the handled request kinds (the default case logs, deletes the task and
sets rc = -1); `encodeRc` is the combined result of the encode/flush
sequence for the request's kind and `msgid` the message id it reserved
(TPP only); `ppwt` models whether the caller passed a non-null ppwt;
`setTaskOk` models whether set_task succeeded.  Per the specification,
set_task inserts the new task into the global event list; on a successful
TPP send the task is unlinked from that list and the msgid stored in
wt_event2 before the task is handed back. -/
def issue_Drequest (isLocal : Bool) (prot : Prot) (knownType : Bool)
    (encodeRc : Int) (msgid : Option String) (ppwt : Bool) (setTaskOk : Bool) :
    DrqResult :=
  if setTaskOk = false then
    { ret := -1, taskCreated := false, taskDeleted := false, msgidFreed := false,
      taskOnEventList := false, task_event2 := none, task_aux2 := none,
      returnedTask := false, localDispatched := false }
  else if isLocal then
    { ret := 0, taskCreated := true, taskDeleted := false, msgidFreed := false,
      taskOnEventList := true, task_event2 := none, task_aux2 := none,
      returnedTask := ppwt, localDispatched := true }
  else
    let rc : Int := if knownType then encodeRc else -1
    let msgid1 : Option String := if knownType then msgid else none
    if rc ≠ 0 then
      { ret := rc, taskCreated := true, taskDeleted := true,
        msgidFreed := msgid1.isSome, taskOnEventList := false,
        task_event2 := none, task_aux2 := none,
        returnedTask := false, localDispatched := false }
    else if ppwt then
      if prot = Prot.tpp then
        { ret := 0, taskCreated := true, taskDeleted := false, msgidFreed := false,
          taskOnEventList := false, task_event2 := msgid1, task_aux2 := some prot,
          returnedTask := true, localDispatched := false }
      else
        { ret := 0, taskCreated := true, taskDeleted := false, msgidFreed := false,
          taskOnEventList := true, task_event2 := none, task_aux2 := some prot,
          returnedTask := true, localDispatched := false }
    else
      { ret := 0, taskCreated := true, taskDeleted := false, msgidFreed := false,
        taskOnEventList := true, task_event2 := none, task_aux2 := none,
        returnedTask := false, localDispatched := false }

/-- Observable outcome of add_mom_deferred_list: the task created (if
set_task succeeded), whether it is still linked on the global event list,
and the MOM's deferred-command list afterwards. -/
structure MomDeferredResult where
  created : Option DefTask
  taskOnEventList : Bool
  deferredList : List DefTask
deriving DecidableEq, Repr

/-- add_mom_deferred_list (issue_request.c lines 329-357): create a
WORK_Deferred_cmd task (set_task inserts it into the global event list,
per the specification), store the msgid in wt_event2, unlink the task
from the event list (delete_link on wt_linkevent), and append it to the
MOM's deferred-command list.  `momDeferredTask msgid` is the
WORK_Deferred_cmd task it builds. -/
def momDeferredTask (msgid : String) : DefTask :=
  { wt_type := WType.Deferred_cmd, wt_event2 := msgid,
    wt_parm1 := none, wt_parm3 := none, wt_aux := 0 }

def add_mom_deferred_list (setTaskOk : Bool) (msgid : String)
    (deferred : List DefTask) : MomDeferredResult :=
  if setTaskOk = false then
    { created := none, taskOnEventList := false, deferredList := deferred }
  else
    { created := some (momDeferredTask msgid), taskOnEventList := false,
      deferredList := deferred ++ [momDeferredTask msgid] }

/-- The NUL character terminating a C string. -/
def nulChar : Char := Char.ofNat 0

/-- C-string indexing on a char-list model: positions past the end read
the terminating NUL. -/
def charAt (s : List Char) (i : Nat) : Char := s.getD i nulChar

/-- strncasecmp over NUL-free C strings modelled as char lists, returning
whether the first n characters compare equal (case-insensitively); a
string that ends before the other within the first n characters compares
unequal. -/
def strncasecmpEq : List Char → List Char → Nat → Bool
  | _, _, 0 => true
  | [], [], _ + 1 => true
  | [], _ :: _, _ + 1 => false
  | _ :: _, [], _ + 1 => false
  | a :: s1, b :: s2, n + 1 => (a.toLower == b.toLower) && strncasecmpEq s1 s2 n

/-- The failover redirect of issue_to_svr (issue_request.c lines
246-257): when this process is the active (secondary) server of a
failover pair, a destination name that case-insensitively matches a
leading portion of the primary host's name, with the primary host's name
ending or continuing with '.' right after that portion, is replaced by
this server's own host name. -/
def issue_to_svr_name (failoverActive : Bool) (svrname primaryHost serverHost : List Char) :
    List Char :=
  if failoverActive then
    let len := svrname.length
    if strncasecmpEq svrname primaryHost len then
      if charAt primaryHost len = nulChar ∨ charAt primaryHost len = '.' then serverHost
      else svrname
    else svrname
  else svrname

/-- Terminal outcome of one issue_to_svr invocation. `retryScheduled t`
means a single WORK_Timed work task firing at time `t` (running
reissue_to_svr) was created via set_task. -/
inductive SvrOutcome where
  | dispatched
  | retryScheduled (fireTime : Int)
  | permFail
deriving DecidableEq, Repr

/-- Observable outcome of issue_to_svr: the name handed to address
resolution, the terminal outcome, and the return code (0 when a retry is
scheduled, -1 on permanent failure, the issue_Drequest result when
dispatched). -/
structure IssueToSvrResult where
  resolvedName : List Char
  outcome : SvrOutcome
  ret : Int
deriving Repr

/-- The attempt made by issue_to_svr once the destination name is fixed
(issue_request.c lines 258-280): `rp` is (get_hostaddr result, pbs_errno
afterwards) — address 0 means resolution failed; `connect` is svr_connect
on the resolved address (a non-negative handle or a negative error);
`drc` is the issue_Drequest return code on an open handle.  Resolution or
connect failure with PBS_NET_RC_RETRY sets do_retry, which schedules a
WORK_Timed reissue_to_svr task at time_now + 2*PBS_NET_RETRY_TIME and
returns 0; any other failure returns -1 with no retry task. -/
def issue_to_svr_attempt (rp : Nat × Int) (connect : Nat → Int)
    (timeNow drc : Int) : SvrOutcome × Int :=
  if rp.1 = 0 then
    if rp.2 = PBS_NET_RC_RETRY then
      (SvrOutcome.retryScheduled (timeNow + 2 * PBS_NET_RETRY_TIME), 0)
    else (SvrOutcome.permFail, -1)
  else
    let handle := connect rp.1
    if 0 ≤ handle then (SvrOutcome.dispatched, drc)
    else if handle = PBS_NET_RC_RETRY then
      (SvrOutcome.retryScheduled (timeNow + 2 * PBS_NET_RETRY_TIME), 0)
    else (SvrOutcome.permFail, -1)

/-- issue_to_svr (issue_request.c lines 228-280), taking the parsed
destination name (parse_servername's non-null result) as `svrname`. -/
def issue_to_svr (failoverActive : Bool) (svrname primaryHost serverHost : List Char)
    (resolve : List Char → Nat × Int) (connect : Nat → Int)
    (timeNow drc : Int) : IssueToSvrResult :=
  let name := issue_to_svr_name failoverActive svrname primaryHost serverHost
  let p := issue_to_svr_attempt (resolve name) connect timeNow drc
  { resolvedName := name, outcome := p.1, ret := p.2 }

/-- Observable outcome of one firing of the retry trampoline: whether the
caller's callback was invoked with the failure markers
(wt_aux = -1, wt_event = -1), and whether issue_to_svr was re-invoked. -/
structure ReissueResult where
  callbackFailed : Bool
  reattempted : Bool
deriving DecidableEq, Repr

/-- reissue_to_svr (issue_request.c lines 189-207): if the elapsed time
since the original request exceeds PBS_NET_RETRY_LIMIT the callback is
invoked with the failure markers without re-dispatching; otherwise
issue_to_svr is re-invoked (its return value modelled by `issueResult`)
and the callback is invoked with the failure markers exactly when that
returns -1. -/
def reissue_to_svr (timeNow rqTime : Int) (issueResult : Int) : ReissueResult :=
  if PBS_NET_RETRY_LIMIT < timeNow - rqTime then
    { callbackFailed := true, reattempted := false }
  else if issueResult = -1 then
    { callbackFailed := true, reattempted := true }
  else
    { callbackFailed := false, reattempted := true }

/-- relay_to_mom2 (issue_request.c lines 127-175): fail with
PBSE_NORELYMOM when the MOM is unknown or the connection cannot be made;
otherwise clear pbs_errno, call issue_Drequest (its return code is
`issueRc`, and `pbsErrnoAfter` is pbs_errno when it returns), and map a
nonzero return code with pbs_errno still zero to PBSE_SYSTEM so that
callers only see PBSE error numbers. -/
def relay_to_mom2 (momFound : Bool) (connOk : Bool) (issueRc : Int)
    (pbsErrnoAfter : Int) : Int :=
  if momFound = false then PBSE_NORELYMOM
  else if connOk = false then PBSE_NORELYMOM
  else if issueRc ≠ 0 ∧ pbsErrnoAfter = 0 then PBSE_SYSTEM
  else issueRc

/-- The first task in a deferred-command list whose stored identifier
strcmp-equals `msgid` — the search performed by the scan loop of
process_DreplyTPP. -/
def findDeferred (msgid : String) : List DefTask → Option DefTask
  | [] => none
  | t :: rest => if t.wt_event2 = msgid then some t else findDeferred msgid rest

/-- A zeroed batch reply, used as concrete sample data. -/
def replyZero : BatchReply := { brp_code := 0, brp_choice := 0 }

/-- Concrete sample: a deferred-reply task with an attached batch_request
and stored msgid "a". -/
def taskA : DefTask :=
  { wt_type := WType.Deferred_Reply, wt_event2 := "a",
    wt_parm1 := some { rq_reply := replyZero }, wt_parm3 := none, wt_aux := 0 }

/-- Concrete sample: a deferred-command task (no batch_request) with
stored msgid "b". -/
def taskB : DefTask :=
  { wt_type := WType.Deferred_cmd, wt_event2 := "b",
    wt_parm1 := none, wt_parm3 := none, wt_aux := 0 }

/-- Concrete sample: a deferred-reply task on the global event list bound
to connection handle 5. -/
def evTaskFive : EvTask :=
  { wt_type := WType.Deferred_Reply, wt_event := 5, request := { rq_reply := replyZero } }

/-! Helper lemmas -/

theorem purgeTask_aux (rc : Int) (t : DefTask) :
    (purgeTask rc t).wt_aux = PBSE_NORELYMOM := rfl

theorem purgeTask_parm1 (rc : Int) (t : DefTask)
    (h1 : t.wt_type = WType.Deferred_Reply) (h2 : t.wt_parm1.isSome) :
    (purgeTask rc t).wt_parm1 = some { rq_reply :=
      { brp_code := rc, brp_choice := BATCH_REPLY_CHOICE_NULL } } := by
  obtain ⟨req, hreq⟩ := Option.isSome_iff_exists.mp h2
  simp [purgeTask, h1, hreq]

theorem tppPurgeD_eq_map (rc : Int) (l : List DefTask) :
    tppPurgeD rc l = l.map (purgeTask rc) := by
  induction l with
  | nil => rfl
  | cons t rest ih => simp [tppPurgeD, ih]

theorem completeMatched_event2 (decodeRc : Int) (decoded : BatchReply) (t : DefTask) :
    (completeMatched decodeRc decoded t).wt_event2 = t.wt_event2 := by
  unfold completeMatched
  split <;> rfl

theorem completeMatched_type (decodeRc : Int) (decoded : BatchReply) (t : DefTask) :
    (completeMatched decodeRc decoded t).wt_type = t.wt_type := by
  unfold completeMatched
  split <;> rfl

theorem completeMatched_parm3 (decodeRc : Int) (decoded : BatchReply) (t : DefTask) :
    (completeMatched decodeRc decoded t).wt_parm3 =
      some (matchedRep decodeRc decoded) := by
  unfold completeMatched
  split <;> rfl

theorem completeMatched_aux (decodeRc : Int) (decoded : BatchReply) (t : DefTask) :
    (completeMatched decodeRc decoded t).wt_aux = matchedAux decodeRc decoded := by
  unfold completeMatched
  split <;> rfl

theorem matchedRep_fail (decodeRc : Int) (decoded : BatchReply) (h : decodeRc ≠ 0) :
    matchedRep decodeRc decoded =
      { brp_code := decodeRc, brp_choice := BATCH_REPLY_CHOICE_NULL } := by
  simp [matchedRep, h]

theorem matchedAux_fail (decodeRc : Int) (decoded : BatchReply) (h : decodeRc ≠ 0) :
    matchedAux decodeRc decoded = PBSE_NORELYMOM := by
  simp [matchedAux, h]

theorem tppScan_cons_match (msgid : String) (decodeRc : Int) (decoded : BatchReply)
    (t : DefTask) (rest : List DefTask) (he : t.wt_event2 = msgid) :
    tppScan msgid decodeRc decoded true (t :: rest) =
      { dispatched := [completeMatched decodeRc decoded t], remaining := rest,
        msgidFreed := true, deletedNoDispatch := [] } := by
  by_cases hc : t.wt_type = WType.Deferred_Reply ∧ t.wt_parm1.isSome = true
  · simp [tppScan, he, hc]
  · simp [tppScan, he, hc]

theorem tppScan_cons_noMatch (msgid : String) (decodeRc : Int) (decoded : BatchReply)
    (mallocOk : Bool) (t : DefTask) (rest : List DefTask) (he : t.wt_event2 ≠ msgid) :
    tppScan msgid decodeRc decoded mallocOk (t :: rest) =
      { dispatched := (tppScan msgid decodeRc decoded mallocOk rest).dispatched,
        remaining := t :: (tppScan msgid decodeRc decoded mallocOk rest).remaining,
        msgidFreed := (tppScan msgid decodeRc decoded mallocOk rest).msgidFreed,
        deletedNoDispatch :=
          (tppScan msgid decodeRc decoded mallocOk rest).deletedNoDispatch } := by
  simp [tppScan, he]

theorem process_DreplyTPP_read_ok (msgid : String) (decodeRc : Int)
    (decoded : BatchReply) (mallocOk : Bool) (deferred : List DefTask) :
    process_DreplyTPP true (some msgid) 0 decodeRc decoded mallocOk deferred =
      tppScan msgid decodeRc decoded mallocOk deferred := by
  simp [process_DreplyTPP]

theorem tppScan_none (msgid : String) (decodeRc : Int) (decoded : BatchReply)
    (mallocOk : Bool) (deferred : List DefTask)
    (h : ∀ t ∈ deferred, t.wt_event2 ≠ msgid) :
    tppScan msgid decodeRc decoded mallocOk deferred =
      { dispatched := [], remaining := deferred, msgidFreed := true,
        deletedNoDispatch := [] } := by
  induction deferred with
  | nil => rfl
  | cons t rest ih =>
    have he : t.wt_event2 ≠ msgid := h t (by simp)
    rw [tppScan_cons_noMatch _ _ _ _ _ _ he, ih (fun u hu => h u (by simp [hu]))]

theorem tppScan_find (msgid : String) (decodeRc : Int) (decoded : BatchReply)
    (deferred : List DefTask) (t0 : DefTask)
    (hfind : findDeferred msgid deferred = some t0) :
    ∃ pre post, deferred = pre ++ t0 :: post ∧ (∀ u ∈ pre, u.wt_event2 ≠ msgid) ∧
      t0.wt_event2 = msgid ∧
      tppScan msgid decodeRc decoded true deferred =
        { dispatched := [completeMatched decodeRc decoded t0],
          remaining := pre ++ post, msgidFreed := true,
          deletedNoDispatch := [] } := by
  induction deferred with
  | nil => simp [findDeferred] at hfind
  | cons t rest ih =>
    by_cases he : t.wt_event2 = msgid
    · rw [show findDeferred msgid (t :: rest) = some t by simp [findDeferred, he]]
        at hfind
      have ht : t = t0 := Option.some.inj hfind
      subst ht
      refine ⟨[], rest, rfl, by simp, he, ?_⟩
      rw [tppScan_cons_match _ _ _ _ _ he]
      rfl
    · rw [show findDeferred msgid (t :: rest) = findDeferred msgid rest by
        simp [findDeferred, he]] at hfind
      obtain ⟨pre, post, hsplit, hpre, hev, hscan⟩ := ih hfind
      refine ⟨t :: pre, post, by simp [hsplit], ?_, hev, ?_⟩
      · intro u hu
        rcases List.mem_cons.mp hu with h | h
        · rw [h]; exact he
        · exact hpre u h
      · rw [tppScan_cons_noMatch _ _ _ _ _ _ he, hscan]
        rfl

theorem findDreplyTask_none (sock : Int) (tasks : List EvTask)
    (h : ∀ t ∈ tasks, ¬(t.wt_type = WType.Deferred_Reply ∧ t.wt_event = sock)) :
    findDreplyTask sock tasks = none := by
  induction tasks with
  | nil => rfl
  | cons t rest ih =>
    have h1 := h t (by simp)
    simp only [findDreplyTask, if_neg h1]
    exact ih (fun u hu => h u (by simp [hu]))

/-! Claim theorems -/

/-- Claim C1: when process_DreplyTPP runs on a stream whose peer is known
and whose message identifier is read successfully, exactly the first task
in the peer's deferred-command list whose stored identifier is
string-equal to the received identifier is dispatched to completion: the
dispatched list is that single task (completed), every task before it in
the list has a different identifier, and the rest of the list is left in
place — independent of the order tasks were appended (the statement holds
for every deferred list, hence for every append/arrival order). -/
theorem C1_tpp_first_match (msgid : String) (decodeRc : Int) (decoded : BatchReply)
    (deferred : List DefTask) (t0 : DefTask)
    (hfind : findDeferred msgid deferred = some t0) :
    ∃ pre post, deferred = pre ++ t0 :: post ∧
      (∀ u ∈ pre, u.wt_event2 ≠ msgid) ∧
      t0.wt_event2 = msgid ∧
      (process_DreplyTPP true (some msgid) 0 decodeRc decoded true
          deferred).dispatched = [completeMatched decodeRc decoded t0] ∧
      (completeMatched decodeRc decoded t0).wt_event2 = msgid ∧
      (process_DreplyTPP true (some msgid) 0 decodeRc decoded true
          deferred).remaining = pre ++ post := by
  obtain ⟨pre, post, hsplit, hpre, hev, hscan⟩ :=
    tppScan_find msgid decodeRc decoded deferred t0 hfind
  refine ⟨pre, post, hsplit, hpre, hev, ?_, ?_, ?_⟩
  · rw [process_DreplyTPP_read_ok, hscan]
  · rw [completeMatched_event2]; exact hev
  · rw [process_DreplyTPP_read_ok, hscan]

/-- Claim C1 witness: with tasks carrying identifiers "a" and "b" pending
in that order, a reply carrying "b" completes exactly the second task. -/
theorem C1_tpp_first_match_witness :
    ∃ pre post, [taskA, taskB] = pre ++ taskB :: post ∧
      (∀ u ∈ pre, u.wt_event2 ≠ "b") ∧
      taskB.wt_event2 = "b" ∧
      (process_DreplyTPP true (some "b") 0 0 replyZero true
          [taskA, taskB]).dispatched = [completeMatched 0 replyZero taskB] ∧
      (completeMatched 0 replyZero taskB).wt_event2 = "b" ∧
      (process_DreplyTPP true (some "b") 0 0 replyZero true
          [taskA, taskB]).remaining = pre ++ post :=
  C1_tpp_first_match "b" 0 replyZero [taskA, taskB] taskB (by decide)

/-- Claim C6: a reply matching no pending task completes nothing.  On the
socket-keyed path, when no deferred-reply task on the event list has the
socket as its event, the connection is closed (close_conn drains and
closes it) and no task is dispatched.  On the stream-keyed path, a
successfully read message identifier matching no deferred task leaves
every task in place, dispatches nothing, and the received identifier
buffer is freed. -/
theorem C6_orphan_reply :
    (∀ (sock decodeRc : Int) (decoded : BatchReply) (tasks : List EvTask),
      (∀ t ∈ tasks, ¬(t.wt_type = WType.Deferred_Reply ∧ t.wt_event = sock)) →
        (process_Dreply sock decodeRc decoded tasks).connClosed = true ∧
        (process_Dreply sock decodeRc decoded tasks).dispatched = none) ∧
    (∀ (msgid : String) (decodeRc : Int) (decoded : BatchReply) (mallocOk : Bool)
        (deferred : List DefTask),
      (∀ t ∈ deferred, t.wt_event2 ≠ msgid) →
        (process_DreplyTPP true (some msgid) 0 decodeRc decoded mallocOk
            deferred).dispatched = [] ∧
        (process_DreplyTPP true (some msgid) 0 decodeRc decoded mallocOk
            deferred).remaining = deferred ∧
        (process_DreplyTPP true (some msgid) 0 decodeRc decoded mallocOk
            deferred).msgidFreed = true) := by
  constructor
  · intro sock decodeRc decoded tasks hnone
    have hfind := findDreplyTask_none sock tasks hnone
    simp [process_Dreply, hfind]
  · intro msgid decodeRc decoded mallocOk deferred hnone
    have hscan := tppScan_none msgid decodeRc decoded mallocOk deferred hnone
    rw [process_DreplyTPP_read_ok, hscan]
    exact ⟨rfl, rfl, rfl⟩

/-- Claim C6 witness: a reply on socket 7 with only a task bound to
socket 5 pending closes the connection and dispatches nothing; a TPP
reply with identifier "z" while "a" and "b" are pending touches no task
and frees the identifier buffer. -/
theorem C6_orphan_reply_witness :
    ((process_Dreply 7 0 replyZero [evTaskFive]).connClosed = true ∧
     (process_Dreply 7 0 replyZero [evTaskFive]).dispatched = none) ∧
    ((process_DreplyTPP true (some "z") 0 0 replyZero true
        [taskA, taskB]).dispatched = [] ∧
     (process_DreplyTPP true (some "z") 0 0 replyZero true
        [taskA, taskB]).remaining = [taskA, taskB] ∧
     (process_DreplyTPP true (some "z") 0 0 replyZero true
        [taskA, taskB]).msgidFreed = true) :=
  ⟨C6_orphan_reply.1 7 0 replyZero [evTaskFive] (by decide),
   C6_orphan_reply.2 "z" 0 replyZero true [taskA, taskB] (by decide)⟩

/-- Claim C7: whenever decoding the reply for a matched task fails
(DIS_reply_read nonzero), on either transport the task is still
dispatched exactly once, with a synthesized reply whose result code is
the decode error and whose choice is the null choice. -/
theorem C7_decode_failure_dispatch (decodeRc : Int) (decoded : BatchReply)
    (hrc : decodeRc ≠ 0) :
    (∀ (sock : Int) (tasks : List EvTask) (t0 : EvTask),
      findDreplyTask sock tasks = some t0 →
        (process_Dreply sock decodeRc decoded tasks).dispatched =
          some { t0 with request := { rq_reply :=
            { brp_code := decodeRc, brp_choice := BATCH_REPLY_CHOICE_NULL } } }) ∧
    (∀ (msgid : String) (deferred : List DefTask) (t0 : DefTask),
      findDeferred msgid deferred = some t0 →
        (process_DreplyTPP true (some msgid) 0 decodeRc decoded true
            deferred).dispatched = [completeMatched decodeRc decoded t0] ∧
        (completeMatched decodeRc decoded t0).wt_parm3 =
          some { brp_code := decodeRc, brp_choice := BATCH_REPLY_CHOICE_NULL } ∧
        (completeMatched decodeRc decoded t0).wt_aux = PBSE_NORELYMOM) := by
  constructor
  · intro sock tasks t0 hfind
    simp [process_Dreply, hfind, hrc]
  · intro msgid deferred t0 hfind
    obtain ⟨pre, post, _, _, _, hscan⟩ :=
      tppScan_find msgid decodeRc decoded deferred t0 hfind
    refine ⟨?_, ?_, ?_⟩
    · rw [process_DreplyTPP_read_ok, hscan]
    · rw [completeMatched_parm3, matchedRep_fail _ _ hrc]
    · rw [completeMatched_aux, matchedAux_fail _ _ hrc]

/-- Claim C7 witness: a decode failure with code 3 on the TCP path and on
the TPP path still dispatches the matched task, with the synthesized
reply (3, null choice). -/
theorem C7_decode_failure_dispatch_witness :
    (process_Dreply 5 3 replyZero [evTaskFive]).dispatched =
      some { evTaskFive with request := { rq_reply :=
        { brp_code := 3, brp_choice := BATCH_REPLY_CHOICE_NULL } } } ∧
    ((process_DreplyTPP true (some "a") 0 3 replyZero true
        [taskA]).dispatched = [completeMatched 3 replyZero taskA] ∧
     (completeMatched 3 replyZero taskA).wt_parm3 =
       some { brp_code := 3, brp_choice := BATCH_REPLY_CHOICE_NULL } ∧
     (completeMatched 3 replyZero taskA).wt_aux = PBSE_NORELYMOM) :=
  ⟨(C7_decode_failure_dispatch 3 replyZero (by decide)).1 5 [evTaskFive]
      evTaskFive (by decide),
   (C7_decode_failure_dispatch 3 replyZero (by decide)).2 "a" [taskA]
      taskA (by decide)⟩

/-- Claim C2: when process_DreplyTPP is invoked on a stream whose
message-identifier read fails (disrst returns null or an error), every
task in the peer's deferred-command list is completed exactly once with
wt_aux = PBSE_NORELYMOM; each task carrying a batch_request gets a reply
whose code is the read error and whose choice is the null choice; and the
deferred list is empty afterwards. -/
theorem C2_tpp_purge (msgid : Option String) (readRc : Int) (decodeRc : Int)
    (decoded : BatchReply) (mallocOk : Bool) (deferred : List DefTask)
    (hbroken : msgid = none ∨ readRc ≠ 0) :
    (process_DreplyTPP true msgid readRc decodeRc decoded mallocOk deferred).remaining
        = [] ∧
    (process_DreplyTPP true msgid readRc decodeRc decoded mallocOk deferred).dispatched
        = deferred.map (purgeTask readRc) ∧
    (∀ t ∈ (process_DreplyTPP true msgid readRc decodeRc decoded mallocOk
        deferred).dispatched, t.wt_aux = PBSE_NORELYMOM) ∧
    (∀ t ∈ deferred, t.wt_type = WType.Deferred_Reply → t.wt_parm1.isSome →
      (purgeTask readRc t).wt_parm1 = some { rq_reply :=
        { brp_code := readRc, brp_choice := BATCH_REPLY_CHOICE_NULL } }) := by
  have hproc : process_DreplyTPP true msgid readRc decodeRc decoded mallocOk deferred =
      { dispatched := tppPurgeD readRc deferred, remaining := [],
        msgidFreed := false, deletedNoDispatch := [] } := by
    rcases hbroken with h | h
    · subst h; simp [process_DreplyTPP]
    · cases msgid with
      | none => simp [process_DreplyTPP]
      | some m => simp [process_DreplyTPP, h]
  refine ⟨by simp [hproc], by simp [hproc, tppPurgeD_eq_map], ?_, ?_⟩
  · intro t ht
    rw [hproc] at ht
    simp only [tppPurgeD_eq_map, List.mem_map] at ht
    obtain ⟨u, _, hu⟩ := ht
    rw [← hu]
    exact purgeTask_aux readRc u
  · intro t _ h1 h2
    exact purgeTask_parm1 readRc t h1 h2

/-- Claim C2 witness: a concrete broken-stream purge on a two-task list. -/
theorem C2_tpp_purge_witness :
    (process_DreplyTPP true none 11 0 replyZero true [taskA, taskB]).remaining = [] ∧
    (process_DreplyTPP true none 11 0 replyZero true [taskA, taskB]).dispatched
        = [taskA, taskB].map (purgeTask 11) ∧
    (∀ t ∈ (process_DreplyTPP true none 11 0 replyZero true
        [taskA, taskB]).dispatched, t.wt_aux = PBSE_NORELYMOM) ∧
    (∀ t ∈ [taskA, taskB],
      t.wt_type = WType.Deferred_Reply → t.wt_parm1.isSome →
      (purgeTask 11 t).wt_parm1 = some { rq_reply :=
        { brp_code := 11, brp_choice := BATCH_REPLY_CHOICE_NULL } }) :=
  C2_tpp_purge none 11 0 replyZero true [taskA, taskB] (Or.inl rfl)

/-- Claim C3: for a non-local connection, when the encode/flush sequence
for the request's kind returns a nonzero code, issue_Drequest deletes the
work task (it is tracked in no list and not handed to the caller), frees
any reserved message identifier, and returns that nonzero code — the
model's `encodeRc` is the single combined encode/flush result, so a flush
failure is treated identically to an encode failure. -/
theorem C3_drequest_failure (prot : Prot) (encodeRc : Int) (msgid : Option String)
    (ppwt : Bool) (h : encodeRc ≠ 0) :
    (issue_Drequest false prot true encodeRc msgid ppwt true).ret = encodeRc ∧
    (issue_Drequest false prot true encodeRc msgid ppwt true).taskDeleted = true ∧
    (issue_Drequest false prot true encodeRc msgid ppwt true).taskOnEventList = false ∧
    (issue_Drequest false prot true encodeRc msgid ppwt true).returnedTask = false ∧
    (issue_Drequest false prot true encodeRc msgid ppwt true).msgidFreed
        = msgid.isSome := by
  simp [issue_Drequest, h]

/-- Claim C3 witness: a concrete TPP flush failure with a reserved msgid. -/
theorem C3_drequest_failure_witness :
    (issue_Drequest false Prot.tpp true 7 (some "m1") true true).ret = 7 ∧
    (issue_Drequest false Prot.tpp true 7 (some "m1") true true).taskDeleted = true ∧
    (issue_Drequest false Prot.tpp true 7 (some "m1") true true).taskOnEventList
        = false ∧
    (issue_Drequest false Prot.tpp true 7 (some "m1") true true).returnedTask = false ∧
    (issue_Drequest false Prot.tpp true 7 (some "m1") true true).msgidFreed
        = (some "m1").isSome :=
  C3_drequest_failure Prot.tpp 7 (some "m1") true (by decide)

/-- Claim C5: a firing of reissue_to_svr invokes the caller's callback
with the failure markers (wt_aux = -1, wt_event = -1) exactly when the
elapsed time since the original request exceeds PBS_NET_RETRY_LIMIT or
the re-dispatch via issue_to_svr returns -1; in every other case no
callback is invoked on this path and the request is re-attempted. -/
theorem C5_reissue_failure_iff (timeNow rqTime issueResult : Int) :
    ((reissue_to_svr timeNow rqTime issueResult).callbackFailed = true ↔
      (PBS_NET_RETRY_LIMIT < timeNow - rqTime ∨ issueResult = -1)) ∧
    ((reissue_to_svr timeNow rqTime issueResult).callbackFailed = false →
      (reissue_to_svr timeNow rqTime issueResult).reattempted = true) := by
  unfold reissue_to_svr
  by_cases h1 : PBS_NET_RETRY_LIMIT < timeNow - rqTime
  · simp [h1]
  · by_cases h2 : issueResult = -1 <;> simp [h1, h2]

/-- Claim C5 witness: a timed-out firing invokes the failure callback. -/
theorem C5_reissue_failure_iff_witness :
    ((reissue_to_svr 20000 0 0).callbackFailed = true ↔
      (PBS_NET_RETRY_LIMIT < 20000 - 0 ∨ (0 : Int) = -1)) ∧
    ((reissue_to_svr 20000 0 0).callbackFailed = false →
      (reissue_to_svr 20000 0 0).reattempted = true) :=
  C5_reissue_failure_iff 20000 0 0

theorem strncasecmpEq_len_iff (s p : List Char) :
    strncasecmpEq s p s.length = true ↔
      List.map Char.toLower s = List.take s.length (List.map Char.toLower p) := by
  induction s generalizing p with
  | nil => simp [strncasecmpEq]
  | cons a s ih =>
    cases p with
    | nil => simp [strncasecmpEq]
    | cons b p =>
      simp [strncasecmpEq, Bool.and_eq_true, beq_iff_eq, ih]

/-- Claim C4: for every call to issue_to_svr, if host-name resolution
fails with pbs_errno = PBS_NET_RC_RETRY, or the connect attempt returns
PBS_NET_RC_RETRY, a single WORK_Timed work task firing at
time_now + 2*PBS_NET_RETRY_TIME is scheduled and 0 is returned; if
resolution or connect fails with any other error, -1 is returned and no
retry task is scheduled. -/
theorem C4_issue_to_svr_retry (failoverActive : Bool)
    (svrname primaryHost serverHost name : List Char)
    (resolve : List Char → Nat × Int) (connect : Nat → Int) (timeNow drc : Int)
    (hname : name = issue_to_svr_name failoverActive svrname primaryHost serverHost) :
    ((((resolve name).1 = 0 ∧ (resolve name).2 = PBS_NET_RC_RETRY) ∨
      ((resolve name).1 ≠ 0 ∧ connect (resolve name).1 = PBS_NET_RC_RETRY)) →
      (issue_to_svr failoverActive svrname primaryHost serverHost resolve connect
          timeNow drc).outcome
        = SvrOutcome.retryScheduled (timeNow + 2 * PBS_NET_RETRY_TIME) ∧
      (issue_to_svr failoverActive svrname primaryHost serverHost resolve connect
          timeNow drc).ret = 0) ∧
    ((((resolve name).1 = 0 ∧ (resolve name).2 ≠ PBS_NET_RC_RETRY) ∨
      ((resolve name).1 ≠ 0 ∧ connect (resolve name).1 < 0 ∧
        connect (resolve name).1 ≠ PBS_NET_RC_RETRY)) →
      (issue_to_svr failoverActive svrname primaryHost serverHost resolve connect
          timeNow drc).outcome = SvrOutcome.permFail ∧
      (issue_to_svr failoverActive svrname primaryHost serverHost resolve connect
          timeNow drc).ret = -1) := by
  subst hname
  constructor
  · rintro (⟨h1, h2⟩ | ⟨h1, h2⟩)
    · constructor <;>
        simp [issue_to_svr, issue_to_svr_attempt, h1, h2]
    · have hlt : ¬(0 ≤ connect
          (resolve (issue_to_svr_name failoverActive svrname primaryHost
            serverHost)).1) := by
        rw [h2]; decide
      constructor <;>
        simp [issue_to_svr, issue_to_svr_attempt, h1, h2, hlt, PBS_NET_RC_RETRY]
  · rintro (⟨h1, h2⟩ | ⟨h1, h2, h3⟩)
    · constructor <;>
        simp [issue_to_svr, issue_to_svr_attempt, h1, h2]
    · have hlt : ¬(0 ≤ connect
          (resolve (issue_to_svr_name failoverActive svrname primaryHost
            serverHost)).1) := by omega
      constructor <;>
        simp [issue_to_svr, issue_to_svr_attempt, h1, h3, hlt]

/-- Claim C4 witness: a resolution failure with the retryable indicator
schedules the backoff task and returns 0, and a permanent resolution
failure returns -1 immediately. -/
theorem C4_issue_to_svr_retry_witness :
    ((issue_to_svr false [] [] [] (fun _ => (0, PBS_NET_RC_RETRY)) (fun _ => 0)
        100 0).outcome
      = SvrOutcome.retryScheduled (100 + 2 * PBS_NET_RETRY_TIME) ∧
     (issue_to_svr false [] [] [] (fun _ => (0, PBS_NET_RC_RETRY)) (fun _ => 0)
        100 0).ret = 0) ∧
    ((issue_to_svr false [] [] [] (fun _ => (0, -1)) (fun _ => 0)
        100 0).outcome = SvrOutcome.permFail ∧
     (issue_to_svr false [] [] [] (fun _ => (0, -1)) (fun _ => 0)
        100 0).ret = -1) :=
  ⟨(C4_issue_to_svr_retry false [] [] [] [] (fun _ => (0, PBS_NET_RC_RETRY))
      (fun _ => 0) 100 0 rfl).1 (Or.inl ⟨rfl, rfl⟩),
   (C4_issue_to_svr_retry false [] [] [] [] (fun _ => (0, -1))
      (fun _ => 0) 100 0 rfl).2 (Or.inl ⟨rfl, by decide⟩)⟩

/-- Claim C8: for every call to issue_to_svr with pbs_failover_active
nonzero, the name handed to address resolution is this server's own host
name exactly when the parsed destination name is case-insensitively equal
to a leading portion of the primary host's name and the next character of
the primary host's name is end-of-string (the NUL read past the end) or
'.'; in every other case the parsed name is used unchanged. -/
theorem C8_failover_redirect (svrname primaryHost serverHost : List Char)
    (resolve : List Char → Nat × Int) (connect : Nat → Int) (timeNow drc : Int) :
    (issue_to_svr true svrname primaryHost serverHost resolve connect timeNow
        drc).resolvedName =
      if List.map Char.toLower svrname
            = List.take svrname.length (List.map Char.toLower primaryHost)
          ∧ (charAt primaryHost svrname.length = nulChar
            ∨ charAt primaryHost svrname.length = '.')
      then serverHost else svrname := by
  have hres : (issue_to_svr true svrname primaryHost serverHost resolve connect
      timeNow drc).resolvedName
      = issue_to_svr_name true svrname primaryHost serverHost := rfl
  rw [hres]
  unfold issue_to_svr_name
  by_cases h1 : strncasecmpEq svrname primaryHost svrname.length = true
  · have h1' := (strncasecmpEq_len_iff svrname primaryHost).mp h1
    by_cases h2 : charAt primaryHost svrname.length = nulChar
        ∨ charAt primaryHost svrname.length = '.'
    · simp [h1, h1', h2]
    · simp [h1, h1', h2]
  · have h1' : ¬(List.map Char.toLower svrname
        = List.take svrname.length (List.map Char.toLower primaryHost)) :=
      fun hc => h1 ((strncasecmpEq_len_iff svrname primaryHost).mpr hc)
    simp [Bool.not_eq_true] at h1
    simp [h1, h1']

/-- Claim C9: a stream-keyed (TPP) task that is created and successfully
sent is off the global event list and carries its message identifier:
add_mom_deferred_list unlinks the created task from the event list and
appends it, carrying the msgid, to the peer's deferred list; and
issue_Drequest, on a successful TPP send with a caller-supplied ppwt,
unlinks the task from the event list and stores the reserved identifier
in wt_event2 before handing the task back. -/
theorem C9_tpp_task_unlink (msgid : String) (deferred : List DefTask)
    (msgid2 : Option String) :
    ((add_mom_deferred_list true msgid deferred).taskOnEventList = false ∧
     (∃ t, (add_mom_deferred_list true msgid deferred).created = some t ∧
       t.wt_event2 = msgid ∧
       (add_mom_deferred_list true msgid deferred).deferredList
          = deferred ++ [t])) ∧
    ((issue_Drequest false Prot.tpp true 0 msgid2 true true).ret = 0 ∧
     (issue_Drequest false Prot.tpp true 0 msgid2 true true).taskOnEventList
        = false ∧
     (issue_Drequest false Prot.tpp true 0 msgid2 true true).task_event2
        = msgid2 ∧
     (issue_Drequest false Prot.tpp true 0 msgid2 true true).returnedTask
        = true) := by
  constructor
  · constructor
    · simp [add_mom_deferred_list]
    · exact ⟨momDeferredTask msgid,
        by simp [add_mom_deferred_list], rfl,
        by simp [add_mom_deferred_list]⟩
  · refine ⟨?_, ?_, ?_, ?_⟩ <;> simp [issue_Drequest]

/-- Claim C10: when issue_Drequest returns a nonzero code while pbs_errno
is zero, relay_to_mom2 returns PBSE_SYSTEM instead of the raw internal
code. -/
theorem C10_relay_pbse_system (issueRc pbsErrnoAfter : Int)
    (h1 : issueRc ≠ 0) (h2 : pbsErrnoAfter = 0) :
    relay_to_mom2 true true issueRc pbsErrnoAfter = PBSE_SYSTEM := by
  simp [relay_to_mom2, h1, h2]

/-- Claim C10 witness: the internal code -1 with pbs_errno 0 surfaces as
PBSE_SYSTEM. -/
theorem C10_relay_pbse_system_witness :
    relay_to_mom2 true true (-1) 0 = PBSE_SYSTEM :=
  C10_relay_pbse_system (-1) 0 (by decide) rfl

end IssueRequest
